import Mathlib

/-!
Shallow embedding of the telegram-checklist server (src/server.js, with the
client-side create path from the mini-app source and the soft-delete variant
noted where relevant).

The document store is modelled as a list of checklist rows; a Supabase
`update/insert/delete` call that errors is modelled by the `writeOk` flag of
each handler.  `io.emit` broadcasts are collected in `broadcasts`;
`socket.emit('error', ...)` to the originating caller is `callerError`.
Timestamps (`new Date().toISOString()`) are passed in as the `now` argument,
and the database-assigned row id of an insert as `newId`.
-/

namespace Checklists

/-- Item detail fields, `{login, password, phone, email}` (server.js creates
them as four empty strings; the client reads exactly these four). -/
structure Details where
  login : String
  password : String
  phone : String
  email : String
deriving Repr, DecidableEq

/-- `{login: '', password: '', phone: '', email: ''}` as attached by
`createChecklist` and by `syncBankTemplateToChecklists` for new items. -/
def emptyDetails : Details :=
  { login := "", password := "", phone := "", email := "" }

/-- One checklist item as stored in the `items` JSON column. -/
structure Item where
  id : Nat
  name : String
  status : String
  emoji : String
  details : Details
  lastModified : String
  modifiedBy : String
deriving Repr, DecidableEq

/-- One row of the `checklists` table. -/
structure Checklist where
  id : Nat
  name : String
  group_id : String
  created_by : String
  is_archived : Bool
  items : List Item
  created_at : String
deriving Repr, DecidableEq

/-- One entry of `BANK_TEMPLATE` (id, name, default status, default emoji). -/
structure TemplateItem where
  id : Nat
  name : String
  status : String
  emoji : String
deriving Repr, DecidableEq

/-- The default `BANK_TEMPLATE` of src/server.js lines 84-101. -/
def BANK_TEMPLATE : List TemplateItem :=
  [ { id := 1, name := "Amazon", status := "NOT_STARTED", emoji := "⬜" },
    { id := 2, name := "Wamo", status := "NOT_STARTED", emoji := "⬜" },
    { id := 3, name := "Paysera Business", status := "NOT_STARTED", emoji := "⬜" },
    { id := 4, name := "Paynovus", status := "NOT_STARTED", emoji := "⬜" },
    { id := 5, name := "ICard", status := "NOT_STARTED", emoji := "⬜" },
    { id := 6, name := "Mifinity", status := "NOT_STARTED", emoji := "⬜" },
    { id := 7, name := "Revolut", status := "NOT_STARTED", emoji := "⬜" },
    { id := 8, name := "OpenPayd", status := "NOT_STARTED", emoji := "⬜" },
    { id := 9, name := "Finom", status := "NOT_STARTED", emoji := "⬜" },
    { id := 10, name := "Zen", status := "NOT_STARTED", emoji := "⬜" },
    { id := 11, name := "Genome", status := "NOT_STARTED", emoji := "⬜" },
    { id := 12, name := "Multipass", status := "NOT_STARTED", emoji := "⬜" },
    { id := 13, name := "Sokin", status := "NOT_STARTED", emoji := "⬜" },
    { id := 14, name := "Brighty", status := "NOT_STARTED", emoji := "⬜" },
    { id := 15, name := "Unlimit", status := "NOT_STARTED", emoji := "⬜" },
    { id := 16, name := "Satchel", status := "NOT_STARTED", emoji := "⬜" } ]

/-- `const statusCycle = ['NOT_STARTED', 'IN_PROGRESS', 'APPROVED', 'DECLINED']`
(server.js line 211). -/
def statusCycle : List String :=
  ["NOT_STARTED", "IN_PROGRESS", "APPROVED", "DECLINED"]

/-- The `statusEmoji` object literal (server.js lines 212-217); a lookup at a
key outside the four statuses is `undefined` in JS and never happens after an
advance, modelled here by the empty string. -/
def statusEmoji (s : String) : String :=
  if s = "NOT_STARTED" then "⬜"
  else if s = "IN_PROGRESS" then "💤"
  else if s = "APPROVED" then "✅"
  else if s = "DECLINED" then "❌"
  else ""

/-- `Array.prototype.indexOf` on a list of strings: index of the first
occurrence, `-1` when absent. -/
def indexOfAux : List String → String → Int → Int
  | [], _, _ => -1
  | x :: xs, s, k => if x = s then k else indexOfAux xs s (k + 1)

/-- `statusCycle.indexOf(item.status)` (server.js line 1087). -/
def statusIndexOf (s : String) : Int :=
  indexOfAux statusCycle s 0

/-- `const nextIndex = (currentIndex + 1) % statusCycle.length;
item.status = statusCycle[nextIndex]` (server.js lines 1088-1089).
`nextIndex` is always in range, so the `getD` default is unreachable. -/
def nextStatus (s : String) : String :=
  let currentIndex := statusIndexOf s
  let nextIndex := ((currentIndex + 1) % (statusCycle.length : Int)).toNat
  statusCycle.getD nextIndex ""

/-- The in-place item mutation of the `updateItemStatus` handler
(server.js lines 1087-1092): advance the status, assign the canonical emoji,
stamp modification metadata. -/
def advanceItem (now uid : String) (it : Item) : Item :=
  let st := nextStatus it.status
  { it with status := st, emoji := statusEmoji st, lastModified := now, modifiedBy := uid }

/-- The partial details payload of an `updateItemDetails` message: any subset
of the four fields may be supplied. -/
structure DetailsPatch where
  login : Option String
  password : Option String
  phone : Option String
  email : Option String
deriving Repr, DecidableEq

/-- `item.details = { ...item.details, ...details }` (server.js line 1138):
a supplied field overwrites, an unsupplied field is kept. -/
def mergeDetails (d : Details) (p : DetailsPatch) : Details :=
  { login := p.login.getD d.login,
    password := p.password.getD d.password,
    phone := p.phone.getD d.phone,
    email := p.email.getD d.email }

/-- The in-place item mutation of the `updateItemDetails` handler
(server.js lines 1138-1140). -/
def detailsItem (now uid : String) (p : DetailsPatch) (it : Item) : Item :=
  { it with details := mergeDetails it.details p, lastModified := now, modifiedBy := uid }

/-- The in-place item mutation of the `updateItemEmoji` handler
(server.js lines 1185-1187): the emoji is set independently of the status. -/
def emojiItem (now uid e : String) (it : Item) : Item :=
  { it with emoji := e, lastModified := now, modifiedBy := uid }

/-- The events the server fans out with `io.emit` (socket.io broadcasts to
every connected session). -/
inductive Event
  | checklistCreated (c : Checklist)
  | itemUpdated (checklistId itemId : Nat) (status emoji modifiedBy lastModified : String)
  | detailsUpdated (checklistId itemId : Nat) (details : Details) (modifiedBy lastModified : String)
  | emojiUpdated (checklistId itemId : Nat) (emoji modifiedBy lastModified : String)
  | checklistDeleted (checklistId : Nat)
  | templateUpdated
deriving Repr, DecidableEq

/-- Outcome of one socket handler: the store after the mutation, the list of
`io.emit` broadcasts, and the `socket.emit('error', ...)` message (if any)
sent back to the originating caller only. -/
structure HandlerResult where
  store : List Checklist
  broadcasts : List Event
  callerError : Option String
deriving Repr, DecidableEq

/-- `supabase.from('checklists').select('*').eq('id', checklistId).single()`:
the checklist row with the given id (ids are primary keys, so `.single()`
returns the first and only match, or errors when there is none). -/
def findChecklist (store : List Checklist) (cid : Nat) : Option Checklist :=
  store.find? (fun c => c.id = cid)

/-- Replace the first item with the given id (JS mutates the object found by
`items.find(...)` inside the parsed array, then writes the array back). -/
def setFirstItem : List Item → Nat → Item → List Item
  | [], _, _ => []
  | i :: rest, iid, it => if i.id = iid then it :: rest else i :: setFirstItem rest iid it

/-- `supabase.from('checklists').update({items: ...}).eq('id', checklistId)`:
every row whose id matches gets the new items column. -/
def writeItems (store : List Checklist) (cid : Nat) (items : List Item) : List Checklist :=
  store.map (fun c => if c.id = cid then { c with items := items } else c)

/-- `GET /api/checklists?groupId=` and the `init` snapshot (server.js lines
958-963): the non-archived checklists of one group.  The descending
`created_at` ordering of the query is not modelled; the claims about this
read depend on membership only. -/
def listActive (store : List Checklist) (g : String) : List Checklist :=
  store.filter (fun c => c.group_id == g && !c.is_archived)

/-- The `createChecklist` socket handler (server.js lines 1017-1064).  The
items are a deep copy of `BANK_TEMPLATE` with empty details and creation
metadata; the row is inserted and a `checklistCreated` broadcast emitted.
There is no name validation in this handler.  `writeOk` models whether the
insert succeeds; on failure the thrown error is caught and reported to the
originating caller (`socket.emit('error', ...)`). -/
def createChecklist (writeOk : Bool) (now : String) (newId : Nat)
    (template : List TemplateItem) (store : List Checklist)
    (name userId groupId : String) : HandlerResult :=
  let items := template.map (fun t =>
    ({ id := t.id, name := t.name, status := t.status, emoji := t.emoji,
       details := emptyDetails, lastModified := now, modifiedBy := userId } : Item))
  -- `group_id: groupId || 'default-group'` (an absent or empty groupId is falsy)
  let grp := if groupId = "" then "default-group" else groupId
  let checklist : Checklist :=
    { id := newId, name := name, group_id := grp, created_by := userId,
      is_archived := false, items := items, created_at := now }
  if writeOk then
    { store := store ++ [checklist],
      broadcasts := [Event.checklistCreated checklist],
      callerError := none }
  else
    { store := store, broadcasts := [], callerError := some "insert failed" }

/-- The `updateItemStatus` socket handler (server.js lines 1066-1115).
Unknown checklist or item id: plain `return`, nothing emitted.  On a failed
store write the thrown error is caught and only logged — nothing is sent to
the caller. -/
def updateItemStatus (writeOk : Bool) (now : String) (store : List Checklist)
    (checklistId itemId : Nat) (userId : String) : HandlerResult :=
  match findChecklist store checklistId with
  | none => { store := store, broadcasts := [], callerError := none }
  | some checklist =>
    match checklist.items.find? (fun i => i.id = itemId) with
    | none => { store := store, broadcasts := [], callerError := none }
    | some item =>
      let item' := advanceItem now userId item
      let items' := setFirstItem checklist.items itemId item'
      if writeOk then
        { store := writeItems store checklistId items',
          broadcasts := [Event.itemUpdated checklistId itemId
            item'.status item'.emoji userId item'.lastModified],
          callerError := none }
      else
        { store := store, broadcasts := [], callerError := none }

/-- The `updateItemDetails` socket handler (server.js lines 1117-1162). -/
def updateItemDetails (writeOk : Bool) (now : String) (store : List Checklist)
    (checklistId itemId : Nat) (patch : DetailsPatch) (userId : String) : HandlerResult :=
  match findChecklist store checklistId with
  | none => { store := store, broadcasts := [], callerError := none }
  | some checklist =>
    match checklist.items.find? (fun i => i.id = itemId) with
    | none => { store := store, broadcasts := [], callerError := none }
    | some item =>
      let item' := detailsItem now userId patch item
      let items' := setFirstItem checklist.items itemId item'
      if writeOk then
        { store := writeItems store checklistId items',
          broadcasts := [Event.detailsUpdated checklistId itemId
            item'.details userId item'.lastModified],
          callerError := none }
      else
        { store := store, broadcasts := [], callerError := none }

/-- The `updateItemEmoji` socket handler (server.js lines 1164-1209). -/
def updateItemEmoji (writeOk : Bool) (now : String) (store : List Checklist)
    (checklistId itemId : Nat) (emoji userId : String) : HandlerResult :=
  match findChecklist store checklistId with
  | none => { store := store, broadcasts := [], callerError := none }
  | some checklist =>
    match checklist.items.find? (fun i => i.id = itemId) with
    | none => { store := store, broadcasts := [], callerError := none }
    | some item =>
      let item' := emojiItem now userId emoji item
      let items' := setFirstItem checklist.items itemId item'
      if writeOk then
        { store := writeItems store checklistId items',
          broadcasts := [Event.emojiUpdated checklistId itemId
            emoji userId item'.lastModified],
          callerError := none }
      else
        { store := store, broadcasts := [], callerError := none }

/-- The `deleteChecklist` socket handler of src/server.js lines 1211-1230
(hard delete): the row is removed with no existence check, then a single
`checklistDeleted` broadcast is emitted.  On a failed store delete the error
is caught and only logged. -/
def deleteChecklist (writeOk : Bool) (store : List Checklist) (checklistId : Nat) : HandlerResult :=
  if writeOk then
    { store := store.filter (fun c => c.id != checklistId),
      broadcasts := [Event.checklistDeleted checklistId],
      callerError := none }
  else
    { store := store, broadcasts := [], callerError := none }

/-- What the client-side `ChecklistApp.createChecklist` does, observable
actions only: socket emissions and toast notifications. -/
inductive ClientAction
  | emitCreate (name userId groupId : String)
  | notify (msg : String)
deriving Repr, DecidableEq

/-- JS `String.prototype.trim`: strip leading and trailing whitespace. -/
def jsTrim (s : String) : String :=
  ⟨((s.data.dropWhile Char.isWhitespace).reverse.dropWhile Char.isWhitespace).reverse⟩

/-- `ChecklistApp.createChecklist` (mini-app source lines 292-313): the name
is trimmed; an empty name or a name longer than 50 characters produces a
local notification and no socket emission. -/
def clientCreateChecklist (rawName userId groupId : String) : List ClientAction :=
  let name := jsTrim rawName
  if name = "" then
    [ClientAction.notify "⚠️ Enter checklist name"]
  else if name.length > 50 then
    [ClientAction.notify "⚠️ Name is too long"]
  else
    [ClientAction.emitCreate name userId groupId, ClientAction.notify "⏳ Creating..."]

/-- The lookup through the `existingByName` map of
`syncBankTemplateToChecklists` (server.js lines 160-163): the map is built by
`forEach`, so when two existing items share a lowercased name the last one
wins. -/
def lastMatch (existingItems : List Item) (nm : String) : Option Item :=
  existingItems.foldl
    (fun acc i => if i.name.toLower = nm.toLower then some i else acc) none

/-- The carried-over item of the sync (server.js lines 168-177):
`{...templateItem, status, emoji, details, lastModified, modifiedBy}` of the
matching existing item. -/
def carriedItem (t : TemplateItem) (ex : Item) : Item :=
  { id := t.id, name := t.name, status := ex.status, emoji := ex.emoji,
    details := ex.details, lastModified := ex.lastModified, modifiedBy := ex.modifiedBy }

/-- The fresh item of the sync (server.js lines 178-186): template defaults,
empty details, `modifiedBy: 'system'`. -/
def freshItem (t : TemplateItem) (now : String) : Item :=
  { id := t.id, name := t.name, status := t.status, emoji := t.emoji,
    details := emptyDetails, lastModified := now, modifiedBy := "system" }

/-- The new items array built by `syncBankTemplateToChecklists` for one
checklist (server.js lines 165-187): walk the template in order; a
case-insensitive name match carries the existing item's state over, otherwise
template defaults are used.  Existing items absent from the template do not
appear. -/
def syncItems (template : List TemplateItem) (now : String)
    (existingItems : List Item) : List Item :=
  template.map (fun t =>
    match lastMatch existingItems t.name with
    | some ex => carriedItem t ex
    | none => freshItem t now)

/-- `syncBankTemplateToChecklists` (server.js lines 141-206): every checklist
row of the table (the select has no archived filter) gets its items column
rebuilt from the template. -/
def syncBankTemplateToChecklists (template : List TemplateItem) (now : String)
    (store : List Checklist) : List Checklist :=
  store.map (fun c => { c with items := syncItems template now c.items })

/-! ## Concrete fixtures used by witnesses and counterexamples -/

/-- A well-formed item: cycle status with its canonical emoji. -/
def demoItem : Item :=
  { id := 1, name := "Amazon", status := "NOT_STARTED", emoji := "⬜",
    details := emptyDetails, lastModified := "t0", modifiedBy := "u0" }

/-- The same item after a glyph override ( `updateItemEmoji` with "🔥" ):
status and emoji diverge. -/
def demoOverriddenItem : Item := { demoItem with emoji := "🔥" }

/-- An item whose status is outside the four-state cycle. -/
def demoWeirdItem : Item := { demoItem with status := "WEIRD" }

/-- A one-item checklist row. -/
def demoChecklist : Checklist :=
  { id := 1, name := "Q1 Banks", group_id := "g1", created_by := "u0",
    is_archived := false, items := [demoItem], created_at := "t0" }

/-- A two-entry template used by the sync witness. -/
def demoTemplate : List TemplateItem :=
  [ { id := 1, name := "Amazon", status := "NOT_STARTED", emoji := "⬜" },
    { id := 2, name := "Wamo", status := "NOT_STARTED", emoji := "⬜" } ]

/-! ## Helper lemmas about the advance step -/

theorem advanceItem_status (now uid : String) (it : Item) :
    (advanceItem now uid it).status = nextStatus it.status := rfl

theorem advanceItem_emoji (now uid : String) (it : Item) :
    (advanceItem now uid it).emoji = statusEmoji (nextStatus it.status) := rfl

theorem mem_statusCycle_cases (s : String) (hs : s ∈ statusCycle) :
    s = "NOT_STARTED" ∨ s = "IN_PROGRESS" ∨ s = "APPROVED" ∨ s = "DECLINED" := by
  simpa [statusCycle] using hs

/-- Four advances of the status function close the cycle on its members. -/
theorem nextStatus_four_cycle (s : String) (hs : s ∈ statusCycle) :
    nextStatus (nextStatus (nextStatus (nextStatus s))) = s := by
  rcases mem_statusCycle_cases s hs with h | h | h | h <;> subst h <;> decide

/-! ## C1 — cycle closure of the advance operation -/

/-- C1, counterexample: the claim "applying the advance operation four times
returns the item to its original status AND its original glyph" fails for an
item whose glyph was overridden away from the canonical one (status
`NOT_STARTED`, emoji "🔥"): after four advances the status is back but the
emoji has been normalised to "⬜". -/
theorem C1_counterexample :
    ¬ ((advanceItem "t4" "u" (advanceItem "t3" "u" (advanceItem "t2" "u"
          (advanceItem "t1" "u" demoOverriddenItem)))).status = demoOverriddenItem.status ∧
       (advanceItem "t4" "u" (advanceItem "t3" "u" (advanceItem "t2" "u"
          (advanceItem "t1" "u" demoOverriddenItem)))).emoji = demoOverriddenItem.emoji) := by
  decide

/-- C1, amended: for every item whose status is one of the four cycle values
and whose glyph is the canonical glyph of its status, four advances return
the item to its original status and original glyph; and a single advance
follows the fixed cycle NOT_STARTED → IN_PROGRESS → APPROVED → DECLINED →
NOT_STARTED, computed as index-in-cycle plus one modulo the cycle length. -/
theorem C1_cycle_closure (it : Item) (h1 : it.status ∈ statusCycle)
    (h2 : it.emoji = statusEmoji it.status) (t1 t2 t3 t4 u1 u2 u3 u4 : String) :
    ((advanceItem t4 u4 (advanceItem t3 u3 (advanceItem t2 u2
        (advanceItem t1 u1 it)))).status = it.status ∧
     (advanceItem t4 u4 (advanceItem t3 u3 (advanceItem t2 u2
        (advanceItem t1 u1 it)))).emoji = it.emoji) ∧
    (advanceItem t1 u1 it).status
      = statusCycle.getD ((statusIndexOf it.status + 1) % (statusCycle.length : Int)).toNat "" ∧
    nextStatus "NOT_STARTED" = "IN_PROGRESS" ∧ nextStatus "IN_PROGRESS" = "APPROVED" ∧
    nextStatus "APPROVED" = "DECLINED" ∧ nextStatus "DECLINED" = "NOT_STARTED" := by
  refine ⟨⟨?_, ?_⟩, rfl, by decide, by decide, by decide, by decide⟩
  · simp only [advanceItem_status]
    exact nextStatus_four_cycle it.status h1
  · simp only [advanceItem_emoji, advanceItem_status]
    rw [nextStatus_four_cycle it.status h1]
    exact h2.symm

/-- C1, witness: the amended theorem applied to a concrete well-formed item. -/
theorem C1_cycle_closure_witness :
    demoItem.status ∈ statusCycle ∧ demoItem.emoji = statusEmoji demoItem.status ∧
    (advanceItem "t4" "u" (advanceItem "t3" "u" (advanceItem "t2" "u"
        (advanceItem "t1" "u" demoItem)))).status = demoItem.status :=
  ⟨by decide, by decide,
    (C1_cycle_closure demoItem (by decide) (by decide) "t1" "t2" "t3" "t4" "u" "u" "u" "u").1.1⟩

/-! ## C2 — the status→glyph invariant -/

/-- C2: after an advance the item's glyph is the canonical glyph of its
resulting status; the details-update step changes neither status nor glyph
(so it cannot create a divergence); and the glyph-override step sets the
glyph to the supplied value independently of the status — it is the only
item mutation that can make glyph and status diverge. -/
theorem C2_glyph_invariant (it : Item) (now uid e : String) (p : DetailsPatch) :
    (advanceItem now uid it).emoji = statusEmoji (advanceItem now uid it).status ∧
    (detailsItem now uid p it).status = it.status ∧
    (detailsItem now uid p it).emoji = it.emoji ∧
    (emojiItem now uid e it).status = it.status ∧
    (emojiItem now uid e it).emoji = e :=
  ⟨rfl, rfl, rfl, rfl, rfl⟩

/-! ## C3 — name validation on checklist creation -/

/-- C3, counterexample: the server-side `createChecklist` handler performs no
name validation.  A request with the empty name, against an empty store and a
succeeding insert, persists a checklist whose name is "" and emits a
`checklistCreated` broadcast, with no error to the caller — contradicting
"the server-side create operation fails validation: no checklist document is
persisted and no broadcast event is emitted". -/
theorem C3_counterexample :
    (createChecklist true "t1" 7 BANK_TEMPLATE [] "" "u1" "g1").store.length = 1 ∧
    (∀ c ∈ (createChecklist true "t1" 7 BANK_TEMPLATE [] "" "u1" "g1").store, c.name = "") ∧
    (createChecklist true "t1" 7 BANK_TEMPLATE [] "" "u1" "g1").broadcasts.length = 1 ∧
    (createChecklist true "t1" 7 BANK_TEMPLATE [] "" "u1" "g1").callerError = none := by
  decide

/-- C3, amended: the name validation lives in the client
(`ChecklistApp.createChecklist`), not in the server handler.  For every
create request whose trimmed name is empty or longer than 50 characters the
client emits no `createChecklist` message — so no checklist is persisted and
no broadcast originates from it — and only shows a local notification to the
caller.  The server handler itself validates nothing: when its insert
succeeds it persists and broadcasts any name whatsoever. -/
theorem C3_client_validation (rawName userId groupId : String)
    (h : jsTrim rawName = "" ∨ 50 < (jsTrim rawName).length) :
    (∀ n u g, ClientAction.emitCreate n u g ∉ clientCreateChecklist rawName userId groupId) ∧
    (∃ m, ClientAction.notify m ∈ clientCreateChecklist rawName userId groupId) ∧
    (∀ now newId template store,
      (createChecklist true now newId template store rawName userId groupId).store.length
          = store.length + 1 ∧
      (createChecklist true now newId template store rawName userId groupId).broadcasts.length
          = 1) := by
  refine ⟨?_, ?_, ?_⟩
  · intro n u g
    by_cases he : jsTrim rawName = ""
    · simp [clientCreateChecklist, he]
    · rcases h with h | h
      · exact absurd h he
      · simp [clientCreateChecklist, he, h]
  · by_cases he : jsTrim rawName = ""
    · exact ⟨"⚠️ Enter checklist name", by simp [clientCreateChecklist, he]⟩
    · rcases h with h | h
      · exact absurd h he
      · exact ⟨"⚠️ Name is too long", by simp [clientCreateChecklist, he, h]⟩
  · intro now newId template store
    simp [createChecklist]

/-- C3, witness: the amended theorem applied to the empty name. -/
theorem C3_client_validation_witness :
    (jsTrim "" = "" ∨ 50 < (jsTrim "").length) ∧
    (∀ n u g, ClientAction.emitCreate n u g ∉ clientCreateChecklist "" "u1" "g1") :=
  ⟨Or.inl (by decide), (C3_client_validation "" "u1" "g1" (Or.inl (by decide))).1⟩

/-! ## C4 — shallow merge semantics of the details update -/

/-- C4: the details merge `{...item.details, ...details}` takes each of the
four fields from the patch when supplied and keeps the existing value when
not (the `getD` equations state exactly "supplied subset overwrites,
unspecified fields unchanged"); and the update is idempotent: applying the
same patch twice through the handler's item step yields the same details
record as applying it once. -/
theorem C4_details_merge (d : Details) (p : DetailsPatch) (it : Item) (n1 n2 u1 u2 : String) :
    (mergeDetails d p).login = p.login.getD d.login ∧
    (mergeDetails d p).password = p.password.getD d.password ∧
    (mergeDetails d p).phone = p.phone.getD d.phone ∧
    (mergeDetails d p).email = p.email.getD d.email ∧
    (detailsItem n2 u2 p (detailsItem n1 u1 p it)).details
      = (detailsItem n1 u1 p it).details := by
  refine ⟨rfl, rfl, rfl, rfl, ?_⟩
  simp only [detailsItem]
  cases hl : p.login <;> cases hp : p.password <;> cases hph : p.phone <;> cases he : p.email <;>
    simp [mergeDetails, hl, hp, hph, he]

/-! ## C5 — advance with an unknown item id -/

/-- C5, counterexample: advancing item id 99 of a checklist that only has
item id 1 leaves the store unchanged and broadcasts nothing, but also sends
NOTHING to the originating caller (`if (!item) return;` — a bare return) —
contradicting "a failure signal is delivered to the originating caller". -/
theorem C5_counterexample :
    (updateItemStatus true "t1" [demoChecklist] 1 99 "u1").callerError = none ∧
    (updateItemStatus true "t1" [demoChecklist] 1 99 "u1").store = [demoChecklist] ∧
    (updateItemStatus true "t1" [demoChecklist] 1 99 "u1").broadcasts = [] := by
  decide

/-- C5, amended: an advance request whose item id matches no item of the
addressed checklist is a silent no-op: the store is unchanged, no event is
broadcast, and no failure signal is delivered to the originating caller
either (the handler just returns). -/
theorem C5_unknown_item_noop (writeOk : Bool) (now : String) (store : List Checklist)
    (cid iid : Nat) (uid : String) (c : Checklist)
    (hc : findChecklist store cid = some c)
    (hi : c.items.find? (fun i => i.id = iid) = none) :
    updateItemStatus writeOk now store cid iid uid
      = { store := store, broadcasts := [], callerError := none } := by
  simp [updateItemStatus, hc, hi]

/-- C5, witness: the amended theorem applied to a concrete store and an
unknown item id. -/
theorem C5_unknown_item_noop_witness :
    findChecklist [demoChecklist] 1 = some demoChecklist ∧
    demoChecklist.items.find? (fun i => i.id = 99) = none ∧
    updateItemStatus true "t1" [demoChecklist] 1 99 "u1"
      = { store := [demoChecklist], broadcasts := [], callerError := none } :=
  ⟨by decide, by decide,
    C5_unknown_item_noop true "t1" [demoChecklist] 1 99 "u1" demoChecklist
      (by decide) (by decide)⟩

/-! ## C6 — template sync rebuild of the item lists -/

/-- C6: for every non-archived checklist in the store, the sync replaces its
items with the list built by walking the template in registry order
(`syncItems`); a template entry with a case-insensitive name match among the
existing items contributes the carried-over item (existing status, glyph,
details and modification metadata), an entry with no match contributes the
fresh item (template defaults, empty details); and every item of the new
list bears the name of some template entry — existing items whose name is
absent from the template are dropped. -/
theorem C6_template_sync (template : List TemplateItem) (now : String)
    (store : List Checklist) (c : Checklist)
    (hc : c ∈ store) (_ha : c.is_archived = false) :
    ({ c with items := syncItems template now c.items }
        ∈ syncBankTemplateToChecklists template now store) ∧
    (∀ t ∈ template, ∀ ex, lastMatch c.items t.name = some ex →
        carriedItem t ex ∈ syncItems template now c.items) ∧
    (∀ t ∈ template, lastMatch c.items t.name = none →
        freshItem t now ∈ syncItems template now c.items) ∧
    (∀ i ∈ syncItems template now c.items, ∃ t ∈ template, i.name = t.name) := by
  refine ⟨List.mem_map_of_mem _ hc, ?_, ?_, ?_⟩
  · intro t ht ex hex
    refine List.mem_map.mpr ⟨t, ht, ?_⟩
    rw [hex]
  · intro t ht hnone
    refine List.mem_map.mpr ⟨t, ht, ?_⟩
    rw [hnone]
  · intro i hi
    rcases List.mem_map.mp hi with ⟨t, ht, rfl⟩
    refine ⟨t, ht, ?_⟩
    cases h : lastMatch c.items t.name <;> simp [h, carriedItem, freshItem]

/-- C6, witness: the sync theorem applied to a concrete store whose checklist
matches the first template entry by name. -/
theorem C6_template_sync_witness :
    (demoChecklist ∈ [demoChecklist] ∧ demoChecklist.is_archived = false) ∧
    ({ demoChecklist with items := syncItems demoTemplate "t1" demoChecklist.items }
        ∈ syncBankTemplateToChecklists demoTemplate "t1" [demoChecklist]) :=
  ⟨⟨by decide, by decide⟩,
    (C6_template_sync demoTemplate "t1" [demoChecklist] demoChecklist
      (by decide) (by decide)).1⟩

/-! ## C7 — delete removes from listActive and broadcasts exactly once -/

/-- C7: a successful delete of an existing checklist removes it from every
subsequent `listActive` read (for its own or any group), and the handler
broadcasts exactly one `checklistDeleted` event carrying the requested id. -/
theorem C7_delete_gone (writeOk : Bool) (store : List Checklist) (cid : Nat) (g : String)
    (_hex : ∃ c ∈ store, c.id = cid) (hok : writeOk = true) :
    (∀ c ∈ listActive (deleteChecklist writeOk store cid).store g, c.id ≠ cid) ∧
    (deleteChecklist writeOk store cid).broadcasts = [Event.checklistDeleted cid] := by
  subst hok
  constructor
  · intro c hcmem
    have h1 : c ∈ (deleteChecklist true store cid).store :=
      List.mem_of_mem_filter hcmem
    simp only [deleteChecklist] at h1
    have := List.of_mem_filter h1
    simpa using this
  · rfl

/-- C7, witness: the delete theorem applied to a concrete one-row store. -/
theorem C7_delete_gone_witness :
    (∃ c ∈ [demoChecklist], c.id = 1) ∧
    (deleteChecklist true [demoChecklist] 1).broadcasts = [Event.checklistDeleted 1] :=
  ⟨by decide, (C7_delete_gone true [demoChecklist] 1 "g1" (by decide) rfl).2⟩

/-! ## C8 — behaviour on a failed persistence write -/

/-- C8, counterexample: when the store write of an advance fails, the
mutation is aborted and nothing is broadcast — but NO error is surfaced to
the originating caller (the handler's catch only logs), contradicting "an
error is surfaced to the originating caller" for every mutation. -/
theorem C8_counterexample :
    (updateItemStatus false "t1" [demoChecklist] 1 1 "u1").callerError = none ∧
    (updateItemStatus false "t1" [demoChecklist] 1 1 "u1").store = [demoChecklist] ∧
    (updateItemStatus false "t1" [demoChecklist] 1 1 "u1").broadcasts = [] := by
  decide

/-- C8, amended: for every mutation, a failed persistence write aborts the
mutation and emits no broadcast (persist happens before broadcast, never the
reverse), leaving the persisted state unchanged; but an error is surfaced to
the originating caller only for create — advance, details-update,
glyph-update and delete fail silently (the error is merely logged). -/
theorem C8_store_failure (now : String) (newId : Nat) (template : List TemplateItem)
    (store : List Checklist) (name userId groupId emoji : String)
    (cid iid : Nat) (p : DetailsPatch) :
    ((createChecklist false now newId template store name userId groupId).store = store ∧
     (createChecklist false now newId template store name userId groupId).broadcasts = [] ∧
     (createChecklist false now newId template store name userId groupId).callerError.isSome
        = true) ∧
    ((updateItemStatus false now store cid iid userId).store = store ∧
     (updateItemStatus false now store cid iid userId).broadcasts = [] ∧
     (updateItemStatus false now store cid iid userId).callerError = none) ∧
    ((updateItemDetails false now store cid iid p userId).store = store ∧
     (updateItemDetails false now store cid iid p userId).broadcasts = [] ∧
     (updateItemDetails false now store cid iid p userId).callerError = none) ∧
    ((updateItemEmoji false now store cid iid emoji userId).store = store ∧
     (updateItemEmoji false now store cid iid emoji userId).broadcasts = [] ∧
     (updateItemEmoji false now store cid iid emoji userId).callerError = none) ∧
    ((deleteChecklist false store cid).store = store ∧
     (deleteChecklist false store cid).broadcasts = [] ∧
     (deleteChecklist false store cid).callerError = none) := by
  refine ⟨⟨rfl, rfl, rfl⟩, ?_, ?_, ?_, ⟨rfl, rfl, rfl⟩⟩
  · rcases hf : findChecklist store cid with _ | c
    · simp [updateItemStatus, hf]
    · rcases hi : c.items.find? (fun i => i.id = iid) with _ | it <;>
        simp [updateItemStatus, hf, hi]
  · rcases hf : findChecklist store cid with _ | c
    · simp [updateItemDetails, hf]
    · rcases hi : c.items.find? (fun i => i.id = iid) with _ | it <;>
        simp [updateItemDetails, hf, hi]
  · rcases hf : findChecklist store cid with _ | c
    · simp [updateItemEmoji, hf]
    · rcases hi : c.items.find? (fun i => i.id = iid) with _ | it <;>
        simp [updateItemEmoji, hf, hi]

/-! ## C9 — advance from a status outside the cycle -/

/-- C9: for an item whose status is none of the four cycle values,
`statusCycle.indexOf` yields -1, `(-1 + 1) % 4 = 0`, and the advance sets the
status to NOT_STARTED with the canonical NOT_STARTED glyph "⬜". -/
theorem C9_unknown_status (it : Item) (now uid : String)
    (h : it.status ∉ statusCycle) :
    (advanceItem now uid it).status = "NOT_STARTED" ∧
    (advanceItem now uid it).emoji = "⬜" := by
  have hcases : it.status ≠ "NOT_STARTED" ∧ it.status ≠ "IN_PROGRESS" ∧
      it.status ≠ "APPROVED" ∧ it.status ≠ "DECLINED" := by
    simpa [statusCycle] using h
  obtain ⟨h1, h2, h3, h4⟩ := hcases
  have hidx : statusIndexOf it.status = -1 := by
    simp [statusIndexOf, indexOfAux, statusCycle,
      Ne.symm h1, Ne.symm h2, Ne.symm h3, Ne.symm h4]
  have hns : nextStatus it.status = "NOT_STARTED" := by
    simp [nextStatus, hidx]
    rfl
  exact ⟨by rw [advanceItem_status, hns], by rw [advanceItem_emoji, hns]; rfl⟩

/-- C9, witness: the theorem applied to a concrete item with status "WEIRD". -/
theorem C9_unknown_status_witness :
    demoWeirdItem.status ∉ statusCycle ∧
    (advanceItem "t1" "u1" demoWeirdItem).status = "NOT_STARTED" :=
  ⟨by decide, (C9_unknown_status demoWeirdItem "t1" "u1" (by decide)).1⟩

/-! ## C10 — delete broadcasts without an existence check -/

/-- C10: whenever the store's delete call itself does not error, the
`deleteChecklist` handler broadcasts one `checklistDeleted` event carrying
the requested id, for EVERY store — in particular also when no checklist
with that id exists (the handler performs no existence check). -/
theorem C10_delete_always_broadcasts (writeOk : Bool) (store : List Checklist)
    (cid : Nat) (hok : writeOk = true) :
    (deleteChecklist writeOk store cid).broadcasts = [Event.checklistDeleted cid] := by
  subst hok
  rfl

/-- C10, witness: the theorem applied to the EMPTY store — no checklist with
id 5 exists, yet the event is broadcast. -/
theorem C10_delete_always_broadcasts_witness :
    (true = true) ∧
    (deleteChecklist true [] 5).broadcasts = [Event.checklistDeleted 5] :=
  ⟨rfl, C10_delete_always_broadcasts true [] 5 rfl⟩

end Checklists
